import Mathlib

/-!
Verification of the JIRA-to-DOCX reporting pipeline (`src/jira_automation.py`).

The script is sequential I/O orchestration: one HTTP GET against a JIRA
search endpoint, one HTTP POST against a local Ollama inference endpoint,
and one document build-and-save.  We embed it shallowly: JSON values and
Python dictionaries become the inductive `PyVal`; each HTTP round trip is
an oracle value (`FetchOutcome`) describing what the external service did;
Python exceptions become `Except String`; the generated Word document
becomes a list of `DocElem` items.  Every definition mirrors the
corresponding lines of `jira_automation.py`.
-/

/-- A Python/JSON value as manipulated by the script: a string, a
dictionary with string keys, or a list.  (Numbers and booleans never occur
on any path the script inspects, so they are omitted from the model.) -/
inductive PyVal where
  | pstr (s : String)
  | pdict (entries : List (String × PyVal))
  | plist (elems : List PyVal)

/-- First-match association lookup, mirroring Python `dict` key lookup. -/
def lookupKey : List (String × PyVal) → String → Option PyVal
  | [], _ => none
  | (k, v) :: rest, key => if k = key then some v else lookupKey rest key

/-- Python type name, used in modelled `AttributeError` messages. -/
def PyVal.typeName : PyVal → String
  | .pstr _ => "str"
  | .pdict _ => "dict"
  | .plist _ => "list"

/-- Python `v.get(key, default)`: succeeds on a dict (returning the entry
or the default), raises `AttributeError` on a non-dict value. -/
def PyVal.get (v : PyVal) (key : String) (default : PyVal) : Except String PyVal :=
  match v with
  | .pdict entries => .ok ((lookupKey entries key).getD default)
  | other => .error ("AttributeError: " ++ other.typeName ++ " object has no attribute get")

/-- Python `str.strip()` with no argument: removes leading and trailing
whitespace characters. -/
def pyStrip (s : String) : String :=
  String.mk (((s.data.dropWhile Char.isWhitespace).reverse.dropWhile Char.isWhitespace).reverse)

/-- Python `v.strip()`: trims surrounding whitespace of a string, raises
`AttributeError` on a non-string value. -/
def PyVal.strip : PyVal → Except String String
  | .pstr s => .ok (pyStrip s)
  | other => .error ("AttributeError: " ++ other.typeName ++ " object has no attribute strip")

mutual
/-- Python `str(v)`: a string prints as itself; dicts and lists print via
`repr` of their elements. -/
def pyStr : PyVal → String
  | .pstr s => s
  | .pdict es => "\x7b" ++ pyReprEntries es ++ "\x7d"
  | .plist vs => "[" ++ pyReprElems vs ++ "]"

/-- Python `repr(v)`: strings are quoted; containers recurse. -/
def pyRepr : PyVal → String
  | .pstr s => "\x27" ++ s ++ "\x27"
  | .pdict es => "\x7b" ++ pyReprEntries es ++ "\x7d"
  | .plist vs => "[" ++ pyReprElems vs ++ "]"

/-- Comma-separated `repr` of dict entries. -/
def pyReprEntries : List (String × PyVal) → String
  | [] => ""
  | [(k, v)] => "\x27" ++ k ++ "\x27: " ++ pyRepr v
  | (k, v) :: rest => "\x27" ++ k ++ "\x27: " ++ pyRepr v ++ ", " ++ pyReprEntries rest

/-- Comma-separated `repr` of list elements. -/
def pyReprElems : List PyVal → String
  | [] => ""
  | [v] => pyRepr v
  | v :: rest => pyRepr v ++ ", " ++ pyReprElems rest
end

/-- Python truthiness of the values the script tests with `if not issues`:
empty strings, dicts and lists are falsy. -/
def pyFalsy : PyVal → Bool
  | .pstr s => s = ""
  | .pdict es => es.isEmpty
  | .plist vs => vs.isEmpty

/-- Python iteration (`for issue in issues`): a list yields its elements,
a dict yields its keys, a string yields its one-character substrings. -/
def iterElems : PyVal → List PyVal
  | .plist vs => vs
  | .pdict es => es.map (fun kv => .pstr kv.1)
  | .pstr s => s.toList.map (fun c => .pstr c.toString)

/-- The flat issue record built by the orchestrator's normalization step
(`issue_data` in `JiraToDocxAutomation.run`): the four values stored under
the keys "issue type", "issue key", "summary" and "status". -/
structure NormalizedIssue where
  issueType : PyVal
  issueKey : PyVal
  summary : PyVal
  status : PyVal

/-- The `issue_data` dictionary as the Python code builds it, in key
order. -/
def NormalizedIssue.toDict (n : NormalizedIssue) : List (String × PyVal) :=
  [("issue type", n.issueType), ("issue key", n.issueKey),
   ("summary", n.summary), ("status", n.status)]

/-- The normalization step of `JiraToDocxAutomation.run` (lines 199-205):

    fields = issue.get("fields", {})
    issue_data = {
        "issue type": fields.get("issuetype", "Unknown").get("name", "Unknown"),
        "issue key": issue.get("key", "No key"),
        "summary": fields.get("summary", "No summary"),
        "status": fields.get("status", {}).get("name", "Unknown"),
    }

Sub-expressions are evaluated in Python's order; any `AttributeError`
raised by a `.get` on a non-dict propagates (there is no try/except in
`run`). -/
def normalizeIssue (issue : PyVal) : Except String NormalizedIssue := do
  let fields ← issue.get "fields" (.pdict [])
  let issuetypeVal ← fields.get "issuetype" (.pstr "Unknown")
  let issueTypeName ← issuetypeVal.get "name" (.pstr "Unknown")
  let issueKey ← issue.get "key" (.pstr "No key")
  let summary ← fields.get "summary" (.pstr "No summary")
  let statusVal ← fields.get "status" (.pdict [])
  let statusName ← statusVal.get "name" (.pstr "Unknown")
  return ⟨issueTypeName, issueKey, summary, statusName⟩

/-- What the external HTTP service sent back: the status code, the raw
body text (`response.text`), and the result of `response.json()` — either
the parsed value or the message of the decode exception it raised. -/
structure HttpResponse where
  status_code : Nat
  text : String
  jsonBody : Except String PyVal

/-- The outcome of one `requests.get`/`requests.post` round trip: either a
response arrived, or a `requests.exceptions.RequestException` was raised
(connection error, timeout, ...) with the given message. -/
inductive FetchOutcome where
  | response (r : HttpResponse)
  | requestException (msg : String)

/-- `JiraToDocxAutomation.fetch_issues` (lines 35-74), as a function of
the round-trip outcome.  Mirrors the code:

  * a non-200 status raises `Exception(...)`, which the `except Exception`
    arm catches, returning `[]`;
  * a `RequestException` is caught, returning `[]`;
  * a `response.json()` failure or a `.get` on a non-dict body is caught
    by `except Exception`, returning `[]`;
  * otherwise the value of `data.get("issues", [])` is returned as-is. -/
def fetch_issues (outcome : FetchOutcome) : PyVal :=
  match outcome with
  | .requestException _ => .plist []
  | .response r =>
    if r.status_code ≠ 200 then .plist []
    else
      match r.jsonBody with
      | .error _ => .plist []
      | .ok data =>
        match data.get "issues" (.plist []) with
        | .error _ => .plist []
        | .ok issues => issues

/-- The fixed instruction text prepended to the flattened issue list to
form the Ollama prompt (lines 90-94). -/
def ollamaInstruction : String :=
  "You are a project manager assistant. Given a list of JIRA issues or tasks with the fields: " ++
  "Issue Type, Issue Key, Summary, and Status, create a concise and professional high level summary of planned " ++
  "or ongoing activities for the current or upcoming month. Do not list individual issues. Give a brief overview."

/-- The full prompt sent in the POST body: instruction plus the
caller-supplied text (`f"Here is the list of issues: {text}"`). -/
def ollamaPrompt (text : String) : String :=
  ollamaInstruction ++ "Here is the list of issues: " ++ text

/-- `JiraToDocxAutomation.summarize_with_ollama` (lines 76-123), as a
function of the text to summarize and the round-trip outcome:

  * non-200 status: returns `f"Error generating summary: {response.text}"`;
  * `RequestException`: returns `f"Error connecting to Ollama: {e}"`;
  * any other exception (JSON decode failure, `.get` on a non-dict body,
    `.strip()` on the non-string default `{}`): caught by
    `except Exception`, returning `f"Error generating summary: {e}"`;
  * success: returns `result.get("response", {}).strip()`. -/
def summarize_with_ollama (text : String) (outcome : FetchOutcome) : String :=
  let _prompt := ollamaPrompt text
  match outcome with
  | .requestException e => "Error connecting to Ollama: " ++ e
  | .response r =>
    if r.status_code ≠ 200 then "Error generating summary: " ++ r.text
    else
      match r.jsonBody with
      | .error e => "Error generating summary: " ++ e
      | .ok result =>
        match result.get "response" (.pdict []) with
        | .error e => "Error generating summary: " ++ e
        | .ok summary =>
          match summary.strip with
          | .error e => "Error generating summary: " ++ e
          | .ok s => s

/-- One element of the generated Word document, in document order. -/
inductive DocElem where
  | heading (text : String) (level : Nat) (alignment : Option Nat)
  | tbl (style : String) (rows : List (List PyVal))
  | paragraph (text : String)
  | pageBreak

/-- One data row of the issue table (lines 159-164): the four cells taken
from the issue dictionary with the code's defensive defaults. -/
def issueRow (issue : List (String × PyVal)) : List PyVal :=
  [(lookupKey issue "issue type").getD (.pstr "N/A"),
   (lookupKey issue "issue key").getD (.pstr "No summary"),
   (lookupKey issue "summary").getD (.pstr "No summary"),
   (lookupKey issue "status").getD (.pstr "No status")]

/-- The header row of the issue table (lines 152-156). -/
def headerRow : List PyVal :=
  [.pstr "Issue Type", .pstr "Issue key", .pstr "Summary", .pstr "Status"]

/-- `JiraToDocxAutomation.generate_word_document` (lines 126-176): the
content of the document it builds and saves — a centered level-1 title, a
"Table Grid" table with one header row plus one row per issue in input
order, a level-2 "Project Summary" heading, the summary paragraph, and a
page break.  (`alignment = 1` is python-docx center alignment.) -/
def generate_word_document (issues : List (List (String × PyVal)))
    (ai_summary : String) (project_name : String) : List DocElem :=
  [ .heading (project_name ++ ": Tasks completed or to be continued in the upcoming month.") 1 (some 1),
    .tbl "Table Grid" (headerRow :: issues.map issueRow),
    .heading "Project Summary" 2 none,
    .paragraph ai_summary,
    .pageBreak ]

/-- The external world one run observes: what the JIRA search round trip
did and what the Ollama round trip did. -/
structure World where
  fetchOutcome : FetchOutcome
  ollamaOutcome : FetchOutcome

/-- The externally observable effects of one `run` invocation. -/
structure RunResult where
  /-- The texts passed to `summarize_with_ollama`, in call order. -/
  summarizerCalls : List String
  /-- The files written by `doc.save`, as (filename, document content). -/
  savedFiles : List (String × List DocElem)
  /-- `some msg` iff an uncaught exception escaped `run`. -/
  raisedMsg : Option String

/-- The flattened line for one normalized issue (line 213):
`f"Issue Key: {issue['issue key']}, Summary: {issue['summary']}, Status: {issue['status']}"`. -/
def issueLine (n : NormalizedIssue) : String :=
  "Issue Key: " ++ pyStr n.issueKey ++ ", Summary: " ++ pyStr n.summary ++
  ", Status: " ++ pyStr n.status

/-- The normalization loop of `run` (lines 195-207): each raw issue is
normalized in turn and appended to `issue_summaries`; the first
`AttributeError` aborts the loop and escapes. -/
def normalizeAll : List PyVal → Except String (List NormalizedIssue)
  | [] => .ok []
  | issue :: rest => do
    let n ← normalizeIssue issue
    let ns ← normalizeAll rest
    return n :: ns

/-- `JiraToDocxAutomation.run` (lines 179-239):

  1. fetch issues; if the result is falsy, print and return (no summarizer
     call, no file written);
  2. normalize each issue (an `AttributeError` in normalization escapes
     `run`, since `run` has no try/except);
  3. join the flattened issue lines with newlines;
  4. call the summarizer with that text;
  5. build and save `JIRA_Summary_Report.docx`. -/
def run (w : World) (project_name : String) : RunResult :=
  let issues := fetch_issues w.fetchOutcome
  if pyFalsy issues then ⟨[], [], none⟩
  else
    match normalizeAll (iterElems issues) with
    | .error e => ⟨[], [], some e⟩
    | .ok issue_summaries =>
      let issues_string := String.intercalate "\n" (issue_summaries.map issueLine)
      let ai_summary := summarize_with_ollama issues_string w.ollamaOutcome
      let doc := generate_word_document (issue_summaries.map NormalizedIssue.toDict)
        ai_summary project_name
      ⟨[issues_string], [("JIRA_Summary_Report.docx", doc)], none⟩

/-- A dict fragment holding `key ↦ v` when `v` is present and nothing
otherwise; used to build raw-issue test families. -/
def optEntry (k : String) (v : Option PyVal) : List (String × PyVal) :=
  match v with
  | none => []
  | some x => [(k, x)]

/-- A well-typed raw issue in the shape the JIRA search API returns, with
each of the four interesting leaves independently present or absent.  The
`issuetype` object itself is always present here (see
`mkIssueNoIssuetype` for the other case). -/
def mkIssue (key itname summ stname : Option String) : PyVal :=
  .pdict (optEntry "key" (key.map .pstr) ++
    [("fields", .pdict (
      [("issuetype", .pdict (optEntry "name" (itname.map .pstr)))] ++
      optEntry "summary" (summ.map .pstr) ++
      optEntry "status" (stname.map (fun s => PyVal.pdict [("name", .pstr s)]))))])

/-- A raw issue whose `fields` block has no `issuetype` entry at all. -/
def mkIssueNoIssuetype (key summ stname : Option String) : PyVal :=
  .pdict (optEntry "key" (key.map .pstr) ++
    [("fields", .pdict (
      optEntry "summary" (summ.map .pstr) ++
      optEntry "status" (stname.map (fun s => PyVal.pdict [("name", .pstr s)]))))])

/-- A concrete raw issue whose `fields` block has no `status` entry. -/
def exIssueNoStatus : PyVal :=
  .pdict [("key", .pstr "PROJ-1"),
          ("fields", .pdict [("issuetype", .pdict [("name", .pstr "Bug")]),
                             ("summary", .pstr "Fix crash")])]

/-- A concrete raw issue whose `fields` block has no `issuetype` entry. -/
def exIssueNoIssuetype : PyVal :=
  .pdict [("key", .pstr "PROJ-2"),
          ("fields", .pdict [("summary", .pstr "Add tests"),
                             ("status", .pdict [("name", .pstr "Open")])])]

/-- A complete concrete raw issue, used to exercise the whole pipeline. -/
def exIssueFull : PyVal :=
  mkIssue (some "PROJ-1") (some "Bug") (some "Fix crash") (some "Open")

/-- A concrete world: the JIRA search succeeds with one issue and the
Ollama call is refused. -/
def exWorldOneIssue : World :=
  ⟨.response ⟨200, "", .ok (.pdict [("issues", .plist [exIssueFull])])⟩,
   .requestException "refused"⟩

/-! ## Theorems -/

/-- A normalized issue's dictionary, read back by the report builder's
defensive `.get`s, yields exactly the four stored fields. -/
theorem issueRow_toDict (n : NormalizedIssue) :
    issueRow n.toDict = [n.issueType, n.issueKey, n.summary, n.status] := rfl

/-- C1 (counterexample): on a raw issue whose `fields` block lacks
`status`, normalization substitutes "Unknown" for the status — not the
claimed "No status"; and on a raw issue whose `fields` block lacks
`issuetype`, normalization raises an `AttributeError` (the string default
"Unknown" has no `.get`) instead of producing any record at all. -/
theorem c1_counterexample :
    normalizeIssue exIssueNoStatus =
      .ok ⟨.pstr "Bug", .pstr "PROJ-1", .pstr "Fix crash", .pstr "Unknown"⟩ ∧
    (PyVal.pstr "Unknown") ≠ .pstr "No status" ∧
    normalizeIssue exIssueNoIssuetype =
      .error "AttributeError: str object has no attribute get" :=
  ⟨rfl, by simp, rfl⟩

/-- C1 (amended): whenever the raw issue's `fields` block carries an
`issuetype` object, normalization produces a record of four string fields,
defaulting a missing `issuetype.name` to "Unknown", a missing `key` to
"No key", a missing `summary` to "No summary", and a missing `status.name`
to "Unknown" (not "No status"); and whenever `fields` carries no
`issuetype` entry, normalization raises instead of producing a record. -/
theorem c1_normalization_defaults (key itname summ stname : Option String) :
    normalizeIssue (mkIssue key itname summ stname) =
      .ok ⟨.pstr (itname.getD "Unknown"), .pstr (key.getD "No key"),
           .pstr (summ.getD "No summary"), .pstr (stname.getD "Unknown")⟩ ∧
    (normalizeIssue (mkIssueNoIssuetype key summ stname)).isOk = false := by
  constructor
  · cases key <;> cases itname <;> cases summ <;> cases stname <;> rfl
  · cases key <;> cases summ <;> cases stname <;> rfl

/-- C2: on an HTTP 200 response whose JSON body holds an `issues` array,
`fetch_issues` returns exactly that array (hence equal length and element
order); when the `issues` key is absent from the body, it returns the
empty list. -/
theorem c2_fetch_issues_success (entries : List (String × PyVal)) (t : String) :
    (∀ xs, lookupKey entries "issues" = some (.plist xs) →
      fetch_issues (.response ⟨200, t, .ok (.pdict entries)⟩) = .plist xs) ∧
    (lookupKey entries "issues" = none →
      fetch_issues (.response ⟨200, t, .ok (.pdict entries)⟩) = .plist []) := by
  constructor
  · intro xs h
    simp [fetch_issues, PyVal.get, h]
  · intro h
    simp [fetch_issues, PyVal.get, h]

/-- C2 (witness): concrete instances of both parts of
`c2_fetch_issues_success`. -/
theorem c2_witness :
    fetch_issues (.response ⟨200, "", .ok
        (.pdict [("issues", .plist [.pstr "a", .pstr "b"])])⟩) =
      .plist [.pstr "a", .pstr "b"] ∧
    fetch_issues (.response ⟨200, "", .ok (.pdict [("total", .pstr "0")])⟩) =
      .plist [] :=
  ⟨(c2_fetch_issues_success _ "").1 _ rfl, (c2_fetch_issues_success _ "").2 rfl⟩

/-- C3: `fetch_issues` is a total function (no exception reaches its
caller), and it returns the empty list on a network-level
`RequestException`, on any non-200 status, on a body that fails JSON
decoding, and on a JSON body that is not an object. -/
theorem c3_fetch_issues_failure (o : FetchOutcome) :
    (∀ m, o = .requestException m → fetch_issues o = .plist []) ∧
    (∀ r, o = .response r → r.status_code ≠ 200 → fetch_issues o = .plist []) ∧
    (∀ r e, o = .response r → r.jsonBody = .error e → fetch_issues o = .plist []) ∧
    (∀ r s, o = .response r → r.jsonBody = .ok (.pstr s) → fetch_issues o = .plist []) := by
  refine ⟨?_, ?_, ?_, ?_⟩
  · rintro m rfl
    rfl
  · rintro r rfl hs
    simp [fetch_issues, hs]
  · rintro r e rfl hj
    simp [fetch_issues, hj]
  · rintro r s rfl hj
    simp [fetch_issues, hj, PyVal.get]

/-- C3 (witness): concrete instances of all four parts of
`c3_fetch_issues_failure`. -/
theorem c3_witness :
    fetch_issues (.requestException "connection timed out") = .plist [] ∧
    fetch_issues (.response ⟨500, "oops", .ok (.pdict [])⟩) = .plist [] ∧
    fetch_issues (.response ⟨200, "<html>", .error "Expecting value"⟩) = .plist [] ∧
    fetch_issues (.response ⟨200, "\x22x\x22", .ok (.pstr "x")⟩) = .plist [] :=
  ⟨(c3_fetch_issues_failure _).1 _ rfl,
   (c3_fetch_issues_failure _).2.1 _ rfl (by decide),
   (c3_fetch_issues_failure _).2.2.1 _ _ rfl rfl,
   (c3_fetch_issues_failure _).2.2.2 _ _ rfl rfl⟩

/-- C4: on an HTTP 200 response whose JSON body has a string `response`
field, `summarize_with_ollama` returns that value with surrounding
whitespace stripped and no other modification. -/
theorem c4_summarize_success (text t s : String) (entries : List (String × PyVal))
    (h : lookupKey entries "response" = some (.pstr s)) :
    summarize_with_ollama text (.response ⟨200, t, .ok (.pdict entries)⟩) = pyStrip s := by
  simp [summarize_with_ollama, PyVal.get, PyVal.strip, h]

/-- C4 (witness): body `{"response": " text "}` yields `"text"`. -/
theorem c4_witness :
    summarize_with_ollama "issues" (.response ⟨200, "", .ok
      (.pdict [("response", .pstr " text ")])⟩) = "text" :=
  (c4_summarize_success "issues" "" " text " [("response", .pstr " text ")] rfl).trans rfl

/-- C5: `summarize_with_ollama` is a total function (no exception reaches
its caller); a non-200 status yields `"Error generating summary: " ++
response.text` (which contains the literal substring "Error generating
summary"), a `RequestException` yields the human-readable
`"Error connecting to Ollama: " ++ message`, and a 200 response whose body
fails JSON decoding yields `"Error generating summary: " ++ message`. -/
theorem c5_summarize_never_raises (text : String) (o : FetchOutcome) :
    (∀ r, o = .response r → r.status_code ≠ 200 →
      summarize_with_ollama text o = "Error generating summary: " ++ r.text) ∧
    (∀ m, o = .requestException m →
      summarize_with_ollama text o = "Error connecting to Ollama: " ++ m) ∧
    (∀ r e, o = .response r → r.status_code = 200 → r.jsonBody = .error e →
      summarize_with_ollama text o = "Error generating summary: " ++ e) := by
  refine ⟨?_, ?_, ?_⟩
  · rintro r rfl hs
    simp [summarize_with_ollama, hs]
  · rintro m rfl
    rfl
  · rintro r e rfl h200 hj
    simp [summarize_with_ollama, h200, hj]

/-- C5 (witness): concrete instances of all three parts of
`c5_summarize_never_raises`. -/
theorem c5_witness :
    summarize_with_ollama "t" (.response ⟨500, "boom", .ok (.pdict [])⟩) =
      "Error generating summary: boom" ∧
    summarize_with_ollama "t" (.requestException "refused") =
      "Error connecting to Ollama: refused" ∧
    summarize_with_ollama "t" (.response ⟨200, "<html>", .error "Expecting value"⟩) =
      "Error generating summary: Expecting value" :=
  ⟨(c5_summarize_never_raises "t" _).1 _ rfl (by decide),
   (c5_summarize_never_raises "t" _).2.1 _ rfl,
   (c5_summarize_never_raises "t" _).2.2 _ _ rfl rfl rfl⟩

/-- C6: for any list of `N` normalized issues, the generated document
starts with the level-1 centered heading
`"<project>: Tasks completed or to be continued in the upcoming month."`,
and its table has exactly `N + 1` rows: the header row
`{Issue Type, Issue key, Summary, Status}` followed by, in input order,
one row per issue whose four cells are that issue's issue type, issue key,
summary and status. -/
theorem c6_report_structure (ns : List NormalizedIssue) (s p : String) :
    generate_word_document (ns.map NormalizedIssue.toDict) s p =
      [ .heading (p ++ ": Tasks completed or to be continued in the upcoming month.") 1 (some 1),
        .tbl "Table Grid"
          (headerRow :: ns.map (fun n => [n.issueType, n.issueKey, n.summary, n.status])),
        .heading "Project Summary" 2 none,
        .paragraph s,
        .pageBreak ] ∧
    (headerRow :: ns.map (fun n => [n.issueType, n.issueKey, n.summary, n.status])).length
      = ns.length + 1 := by
  constructor
  · simp [generate_word_document, List.map_map, Function.comp, issueRow_toDict]
  · simp

/-- C7: whenever the fetch step returns the empty list, `run` terminates
without raising, makes no summarizer call, and writes no file. -/
theorem c7_empty_fetch_early_exit (w : World) (p : String)
    (h : fetch_issues w.fetchOutcome = .plist []) :
    (run w p).summarizerCalls = [] ∧ (run w p).savedFiles = [] ∧
    (run w p).raisedMsg = none := by
  refine ⟨?_, ?_, ?_⟩ <;> simp [run, h, pyFalsy]

/-- C7 (witness): a failed fetch round trip leads to the silent early
exit. -/
theorem c7_witness :
    (run ⟨.requestException "down", .requestException "down"⟩ "P").summarizerCalls = [] ∧
    (run ⟨.requestException "down", .requestException "down"⟩ "P").savedFiles = [] ∧
    (run ⟨.requestException "down", .requestException "down"⟩ "P").raisedMsg = none :=
  c7_empty_fetch_early_exit ⟨.requestException "down", .requestException "down"⟩ "P" rfl

/-- C8: whenever the fetched issues normalize successfully, the one text
passed to the summarizer is the newline-join, in input order, of the lines
`"Issue Key: <key>, Summary: <summary>, Status: <status>"`; the issue type
field does not occur in it. -/
theorem c8_flattened_text (w : World) (p : String) (xs : List PyVal)
    (ns : List NormalizedIssue)
    (h1 : fetch_issues w.fetchOutcome = .plist xs) (hne : xs ≠ [])
    (h2 : normalizeAll xs = .ok ns) :
    (run w p).summarizerCalls =
      [String.intercalate "\n" (ns.map (fun n =>
        "Issue Key: " ++ pyStr n.issueKey ++ ", Summary: " ++ pyStr n.summary ++
        ", Status: " ++ pyStr n.status))] := by
  unfold run
  rw [h1]
  simp [pyFalsy, hne, iterElems, h2]
  rw [show issueLine = (fun n => "Issue Key: " ++ pyStr n.issueKey ++ ", Summary: " ++
    pyStr n.summary ++ ", Status: " ++ pyStr n.status) from rfl]

/-- C8 (witness): one fetched issue produces exactly its flattened line. -/
theorem c8_witness :
    (run exWorldOneIssue "P").summarizerCalls =
      ["Issue Key: PROJ-1, Summary: Fix crash, Status: Open"] :=
  (c8_flattened_text exWorldOneIssue "P" [exIssueFull]
    [⟨.pstr "Bug", .pstr "PROJ-1", .pstr "Fix crash", .pstr "Open"⟩]
    rfl (by simp) rfl).trans rfl

/-- C9: `run` is deterministic in the external responses — two runs given
identical fetch outcomes and identical summarize outcomes produce
identical results, in particular identical saved-report content (table and
summary) and identical summarizer inputs. -/
theorem c9_deterministic (w1 w2 : World) (p : String)
    (hf : w1.fetchOutcome = w2.fetchOutcome)
    (ho : w1.ollamaOutcome = w2.ollamaOutcome) :
    run w1 p = run w2 p := by
  cases w1
  cases w2
  simp only at hf ho
  rw [hf, ho]

/-- C9 (witness): instance at two structurally equal worlds. -/
theorem c9_witness :
    run ⟨.requestException "a", .requestException "b"⟩ "P" =
      run ⟨.requestException "a", .requestException "b"⟩ "P" :=
  c9_deterministic ⟨.requestException "a", .requestException "b"⟩
    ⟨.requestException "a", .requestException "b"⟩ "P" rfl rfl

/-- C10: on an HTTP 200 response whose JSON body lacks a `response` field,
the fallback value is the dict `{}`, `.strip()` on it raises an
`AttributeError`, the `except Exception` arm catches it, and
`summarize_with_ollama` returns a string beginning with
"Error generating summary:". -/
theorem c10_missing_response_field (text t : String) (entries : List (String × PyVal))
    (h : lookupKey entries "response" = none) :
    summarize_with_ollama text (.response ⟨200, t, .ok (.pdict entries)⟩) =
      "Error generating summary: AttributeError: dict object has no attribute strip" ∧
    ∃ rest, summarize_with_ollama text (.response ⟨200, t, .ok (.pdict entries)⟩) =
      "Error generating summary:" ++ rest := by
  have h1 : summarize_with_ollama text (.response ⟨200, t, .ok (.pdict entries)⟩) =
      "Error generating summary: AttributeError: dict object has no attribute strip" := by
    simp [summarize_with_ollama, PyVal.get, PyVal.strip, PyVal.typeName, h]
  exact ⟨h1, " AttributeError: dict object has no attribute strip", h1.trans rfl⟩

/-- C10 (witness): concrete instance with a body carrying only an
unrelated field. -/
theorem c10_witness :
    summarize_with_ollama "t" (.response ⟨200, "", .ok
      (.pdict [("done", .pstr "true")])⟩) =
      "Error generating summary: AttributeError: dict object has no attribute strip" :=
  (c10_missing_response_field "t" "" [("done", .pstr "true")] rfl).1
